import Mathlib

/-!
Shallow embedding of the WildlifeRecorder time-lapse appliance
(source file main-raspbi.py, class TimeLapseCamera) and proofs of the
spec claims about it.

Python strings are modelled as lists of characters, Python ints as Int
(Nat where the value is provably non-negative in the source), Python
floats carrying epoch times as exact decimals (structure PyTime below),
and the persisted log file as an optional character list carried in the
state.  Fallible operations return Except PyErr.
-/

/-- Python str values, modelled as lists of characters. -/
abbrev Str := List Char

/-- The exceptions the modelled code can raise. -/
inductive PyErr where
  | valueError : PyErr
deriving DecidableEq, Repr

/-- Characters removed by Python str.strip with no arguments: the full
CPython Unicode whitespace set, by code point - 09 to 0D, 1C to 1F,
space, 85 (next line), A0 (no-break space), 1680 (ogham), the 2000 to
200A spaces, 2028, 2029 (line and paragraph separators), 202F, 205F and
3000. -/
def isPySpace (c : Char) : Bool :=
  decide ((9 ≤ c.toNat ∧ c.toNat ≤ 13) ∨ (28 ≤ c.toNat ∧ c.toNat ≤ 31) ∨
    c.toNat = 32 ∨ c.toNat = 133 ∨ c.toNat = 160 ∨ c.toNat = 5760 ∨
    (8192 ≤ c.toNat ∧ c.toNat ≤ 8202) ∨ c.toNat = 8232 ∨ c.toNat = 8233 ∨
    c.toNat = 8239 ∨ c.toNat = 8287 ∨ c.toNat = 12288)

/-- Python str.lstrip: drop leading whitespace. -/
def lstrip (s : Str) : Str := s.dropWhile isPySpace

/-- Python str.rstrip: drop trailing whitespace. -/
def rstrip (s : Str) : Str := (s.reverse.dropWhile isPySpace).reverse

/-- Python str.strip with no arguments. -/
def pyStrip (s : Str) : Str := rstrip (lstrip s)

/-- Split a character list at every occurrence of the separator, keeping
empty pieces, as Python str.split(sep) does. -/
def splitOnChar (sep : Char) : Str → List Str
  | [] => [[]]
  | c :: cs =>
    if c = sep then [] :: splitOnChar sep cs
    else
      match splitOnChar sep cs with
      | [] => [[c]]
      | l :: ls => (c :: l) :: ls

/-- The universal-newlines translation Python applies when reading a
file in text mode: a carriage return followed by a line feed, or a lone
carriage return, each become one line feed. -/
def univNewlines : Str → Str
  | [] => []
  | [c] => [if c = '\r' then '\n' else c]
  | c :: d :: rest =>
    if c = '\r' then
      if d = '\n' then '\n' :: univNewlines rest
      else '\n' :: univNewlines (d :: rest)
    else c :: univNewlines (d :: rest)

/-- Successive calls of file.readline on a file split into lines: past the
last line Python returns the empty string. -/
def lineAt (ls : List Str) (i : Nat) : Str := ls.getD i []

/-- The decimal digit character for a digit value below ten. -/
def digitChar (d : Nat) : Char := Char.ofNat (48 + d)

/-- The digit value of a decimal digit character. -/
def charToDigit (c : Char) : Option Nat :=
  if 48 ≤ c.toNat ∧ c.toNat ≤ 57 then some (c.toNat - 48) else none

/-- Little-endian decimal digits of a number, computed with explicit fuel
so that the definition is structurally recursive and kernel-evaluable. -/
def toDigitsRev (fuel : Nat) (n : Nat) : List Nat :=
  match fuel with
  | 0 => []
  | f + 1 => if n = 0 then [] else n % 10 :: toDigitsRev f (n / 10)

/-- Python str applied to a non-negative int: its decimal digit string. -/
def natToChars (n : Nat) : Str :=
  if n = 0 then ['0'] else ((toDigitsRev n n).reverse.map digitChar)

/-- Python str applied to an int. -/
def intToChars (i : Int) : Str :=
  if i < 0 then '-' :: natToChars i.natAbs else natToChars i.toNat

/-- Read a list of decimal digit values off a character list, failing on
the first non-digit character. -/
def parseDigits : Str → Option (List Nat)
  | [] => some []
  | c :: cs => (charToDigit c).bind fun d => (parseDigits cs).map fun ds => d :: ds

/-- Python int applied to a string of decimal digits: fails on the empty
string and on any non-digit character. -/
def parseNat (s : Str) : Option Nat :=
  if s = [] then none
  else (parseDigits s).map fun ds => Nat.ofDigits 10 ds.reverse

/-- Python int applied to a stripped string, modelling the subset of the
int literal grammar that matters here: an optional sign then decimal
digits.  Underscore separators and non-ASCII digits are not modelled. -/
def parseInt (s : Str) : Option Int :=
  if s.head? = some '-' then (parseNat s.tail).map fun n => -(n : Int)
  else if s.head? = some '+' then (parseNat s.tail).map fun n => (n : Int)
  else (parseNat s).map fun n => (n : Int)

/-- A Python float holding an epoch time, modelled as an exact decimal:
whole seconds plus a big-endian list of fractional digits.  Python float
repr always round-trips through float(), which is the only property of
the float type the modelled code relies on, and which this exact decimal
model shares. -/
structure PyTime where
  sec : Nat
  frac : List Nat
deriving DecidableEq, Repr

/-- Well-formed decimal times: every fractional digit is below ten. -/
def PyTime.wf (t : PyTime) : Prop := ∀ d ∈ t.frac, d < 10

/-- The rational value of a decimal time, used for comparisons and
subtraction of times (exact on this decimal model). -/
def PyTime.toQ (t : PyTime) : ℚ :=
  t.sec + ((Nat.ofDigits 10 t.frac.reverse : ℕ) : ℚ) / 10 ^ t.frac.length

/-- Python str applied to a float: the decimal rendering, always with a
decimal point, as repr produces for epoch-sized times. -/
def timeToChars (t : PyTime) : Str :=
  natToChars t.sec ++ '.' :: t.frac.map digitChar

/-- Python float applied to a stripped string, modelling the subset of
the float literal grammar that matters here: digits, optionally with one
decimal point; at least one digit overall.  Signs, exponents, inf and
nan are not modelled. -/
def parseFloat (s : Str) : Option PyTime :=
  match splitOnChar '.' s with
  | [w] => (parseNat w).map fun n => PyTime.mk n []
  | [w, f] =>
    if w = [] ∧ f = [] then none
    else
      (if w = [] then some 0 else parseNat w).bind fun sec =>
        (parseDigits f).map fun fd => PyTime.mk sec fd
  | _ => none

/-- Class constant CAPTURE_INTERVAL, in seconds. -/
def CAPTURE_INTERVAL : ℚ := 5

/-- Class constant DEFAULT_PLAYBACK_SPEED. -/
def DEFAULT_PLAYBACK_SPEED : Int := 1

/-- Class constant DEFAULT_PROJECT, the string "default". -/
def DEFAULT_PROJECT : Str := ['d', 'e', 'f', 'a', 'u', 'l', 't']

/-- Class constant PLAYBACK_SPEEDS. -/
def PLAYBACK_SPEEDS : List Int := [16, 32, 64, 128, 256]

/-- The mutable state of a TimeLapseCamera object, together with the
persisted log file it owns (log_content; none models a missing file).
Fields carry the source attribute names.  The GPIO handles, the window
and the camera device object are external collaborators; only the fact
that the camera opened is kept (cap). -/
structure TLState where
  cap : Bool
  active_project : Str
  selected_project : Str
  selected_project_index : Int
  img_capture_index : Int
  img_max_index : Int
  img_shown_index : Int
  playback_speed : Int
  playback_speed_index : Nat
  projects : List Str
  projects_dict : List (Str × Nat)
  program_start_time : PyTime
  last_picture_time : ℚ
  log_content : Option Str
deriving DecidableEq, Repr

/-- Method TimeLapseCamera.__init__, given the startup clock reading and
the pre-existing persisted log file. -/
def init_state (now : PyTime) (log : Option Str) : TLState where
  cap := false
  active_project := []
  selected_project := []
  selected_project_index := 0
  img_capture_index := 0
  img_max_index := 0
  img_shown_index := 1
  playback_speed := DEFAULT_PLAYBACK_SPEED
  playback_speed_index := 0
  projects := []
  projects_dict := []
  program_start_time := now
  last_picture_time := now.toQ - CAPTURE_INTERVAL
  log_content := log

/-- Method map_time_255: encode an elapsed-seconds count as three pixel
channel values. -/
def map_time_255 (elapsed_time : Nat) : List Nat :=
  let hours := elapsed_time % 86400 / 3600
  let minutes := elapsed_time % 3600 / 60
  let seconds := elapsed_time % 60
  [hours * 10 + 4, minutes * 4 + 2, seconds * 4 + 2]

/-- Method map_255_time: decode three pixel channel values back into a
time-of-day triple. -/
def map_255_time (stats : List Nat) : List Nat :=
  [stats.getD 0 0 / 10, stats.getD 1 0 / 4, stats.getD 2 0 / 4]

/-- Method write_log_file: overwrite the log file with the three fields,
newline-separated, exactly as the source f-string renders them. -/
def write_log_file (st : TLState) : TLState :=
  { st with
      log_content :=
        some (st.active_project ++
          '\n' :: (intToChars st.img_capture_index ++
            '\n' :: timeToChars st.program_start_time)) }

/-- Method read_log_file.  The file is opened in text mode, so the read
sees the content after universal-newlines translation and readline then
splits at line feeds.  The source catches only FileNotFoundError; a
ValueError from int() or float() on a malformed record escapes (in the
source the name assignment happens before the failing parse, but the
exception then kills the process, so the partial mutation is never
observed and an error result models it). -/
def read_log_file (st : TLState) : Except PyErr TLState :=
  match st.log_content with
  | none => Except.ok st
  | some content =>
    let ls := splitOnChar '\n' (univNewlines content)
    let name := pyStrip (lineAt ls 0)
    match parseInt (pyStrip (lineAt ls 1)) with
    | none => Except.error PyErr.valueError
    | some idx =>
      match parseFloat (pyStrip (lineAt ls 2)) with
      | none => Except.error PyErr.valueError
      | some t =>
        Except.ok { st with
          active_project := name
          img_capture_index := idx
          program_start_time := t }

/-- Method is_directory_empty, given the live filesystem as a map from
project name to number of directory entries. -/
def is_directory_empty (entryCount : Str → Nat) (p : Str) : Bool :=
  entryCount p = 0

/-- The for loop inside select_project: scan the project list in order
and activate the first project whose directory is empty, resetting the
session and persisting at once. -/
def select_project_go (st : TLState) (entryCount : Str → Nat) (now : PyTime) :
    List Str → Option TLState
  | [] => none
  | p :: ps =>
    if is_directory_empty entryCount p then
      some (write_log_file { st with
        active_project := p
        program_start_time := now
        img_capture_index := 0 })
    else select_project_go st entryCount now ps

/-- Method select_project. -/
def select_project (st : TLState) (entryCount : Str → Nat) (now : PyTime) : TLState :=
  match select_project_go st entryCount now st.projects with
  | some st' => st'
  | none =>
    if st.active_project ∈ st.projects then st
    else write_log_file { st with active_project := DEFAULT_PROJECT }

/-- Method get_projects, given the list of sub-directories of the
projects folder and the per-project regular-file counts.  The source
fills the initially empty projects_dict with exactly one entry per
listed project. -/
def get_projects (st : TLState) (dirList : List Str) (fileCount : Str → Nat) : TLState :=
  let projects_list := if dirList = [] then [DEFAULT_PROJECT] else dirList
  { st with
      projects := projects_list
      projects_dict := projects_list.map fun p => (p, fileCount p) }

/-- Method setup_project: read the log, scan the catalog, select the
active project, and point playback at it.  The list-index call raises
ValueError when the active project is absent from the catalog. -/
def setup_project (st : TLState) (dirList : List Str) (fileCount entryCount : Str → Nat)
    (now : PyTime) : Except PyErr TLState :=
  (read_log_file st).bind fun st1 =>
    let st2 := get_projects st1 dirList fileCount
    let st3 := select_project st2 entryCount now
    let st4 := { st3 with selected_project := st3.active_project }
    match st4.projects.findIdx? (fun p => p == st4.selected_project) with
    | none => Except.error PyErr.valueError
    | some i => Except.ok { st4 with selected_project_index := (i : Int) }

/-- Method capture_image, given the camera read outcome (none models a
failed read) and the clock reading of the tick.  The returned option is
the frame file written: its project, its index, and the pixel triple
embedded by add_timestamp_to_image via map_time_255. -/
def capture_image (st : TLState) (camRead : Option Unit) (now : PyTime) :
    TLState × Option (Str × Int × List Nat) :=
  if st.cap = false then (st, none)
  else
    match camRead with
    | none => (st, none)
    | some _ =>
      let elapsed := (Int.floor (now.toQ - st.program_start_time.toQ)).toNat
      let idx := st.img_capture_index
      let written := (st.active_project, idx, map_time_255 elapsed)
      let st1 := { st with
        last_picture_time := now.toQ
        img_max_index :=
          if st.selected_project = st.active_project then idx else st.img_max_index
        img_capture_index := idx + 1 }
      (write_log_file st1, some written)

/-- The capture-scheduler check of main_loop: trigger capture_image when
at least CAPTURE_INTERVAL seconds have passed since the last capture. -/
def scheduler_step (st : TLState) (camRead : Option Unit) (now : PyTime) :
    TLState × Option (Str × Int × List Nat) :=
  if CAPTURE_INTERVAL ≤ now.toQ - st.last_picture_time
  then capture_image st camRead now
  else (st, none)

/-- Method play_movie, restricted to its state change: the per-tick
advance of the shown frame index.  Rendering and the waitKey call are
display-collaborator effects outside the modelled state. -/
def play_movie (st : TLState) : TLState :=
  if st.img_max_index ≠ 0 then
    { st with
        img_shown_index :=
          Int.fmod (st.img_shown_index + (if st.playback_speed > 0 then 1 else -1))
            st.img_max_index }
  else { st with img_shown_index := 0 }

/-- Method handle_key_press, given the key code read by waitKey (102 is
f, 98 is b, 112 is p, 115 is s, 97 is a, 113 is q).  Returns the new
state and False exactly when the loop should quit. -/
def handle_key_press (st : TLState) (key : Int) : TLState × Bool :=
  if key = 102 ∨ key = 98 then
    let speed := PLAYBACK_SPEEDS.getD st.playback_speed_index 0 *
      (if key = 98 then -1 else 1)
    ({ st with
        playback_speed := speed
        playback_speed_index := (st.playback_speed_index + 1) % PLAYBACK_SPEEDS.length },
      true)
  else if key = 112 then
    (if st.playback_speed > 0 then { st with playback_speed := DEFAULT_PLAYBACK_SPEED }
     else { st with playback_speed := -DEFAULT_PLAYBACK_SPEED }, true)
  else if key = 115 then
    let i := Int.fmod (st.selected_project_index + 1) (st.projects.length : Int)
    let sel := st.projects.getD i.toNat []
    ({ st with
        selected_project_index := i
        selected_project := sel
        img_shown_index := 1
        img_max_index := (((st.projects_dict.lookup sel).getD 0 : Nat) : Int) }, true)
  else if key = 97 then
    let i := Int.fmod (st.selected_project_index - 1) (st.projects.length : Int)
    let sel := st.projects.getD i.toNat []
    ({ st with
        selected_project_index := i
        selected_project := sel
        img_shown_index := 1
        img_max_index := (((st.projects_dict.lookup sel).getD 0 : Nat) : Int) }, true)
  else if key = 113 then (st, false)
  else (st, true)

/-- Claim C1: for every elapsed in [0, 86400), decoding the encoded
timestamp triple recovers the time-of-day components exactly, and in
particular 3723 encodes to (14, 10, 14) and decodes to (1, 2, 3). -/
theorem map_time_255_roundtrip :
    (∀ elapsed : Nat, elapsed < 86400 →
      map_255_time (map_time_255 elapsed) =
        [elapsed / 3600, elapsed % 3600 / 60, elapsed % 60])
    ∧ map_time_255 3723 = [14, 10, 14]
    ∧ map_255_time [14, 10, 14] = [1, 2, 3] := by
  refine ⟨fun e he => ?_, by decide, by decide⟩
  simp only [map_time_255, map_255_time, List.getD_cons_zero, List.getD_cons_succ,
    List.cons.injEq, and_true]
  omega

/-- Witness for claim C1 at elapsed 3723. -/
theorem map_time_255_roundtrip_witness :
    map_255_time (map_time_255 3723) = [3723 / 3600, 3723 % 3600 / 60, 3723 % 60] :=
  map_time_255_roundtrip.1 3723 (by decide)

/-- Claim C8: every channel value produced by map_time_255 lies in
[2, 238]; none is 0 and none is 255. -/
theorem map_time_255_range :
    ∀ elapsed : Nat, ∀ v ∈ map_time_255 elapsed,
      2 ≤ v ∧ v ≤ 238 ∧ v ≠ 0 ∧ v ≠ 255 := by
  intro e v hv
  simp only [map_time_255, List.mem_cons, List.not_mem_nil, or_false] at hv
  rcases hv with h | h | h <;> subst h <;> omega

/-- Witness for claim C8 at elapsed 0 and the first channel value. -/
theorem map_time_255_range_witness :
    2 ≤ (map_time_255 0).getD 0 0 ∧ (map_time_255 0).getD 0 0 ≤ 238
    ∧ (map_time_255 0).getD 0 0 ≠ 0 ∧ (map_time_255 0).getD 0 0 ≠ 255 :=
  map_time_255_range 0 ((map_time_255 0).getD 0 0) (by decide)

/-- Claim C6 (amended): on an advance-forward or advance-backward event
the new speed is the speed table entry at the pre-rotation speedIndex
(times -1 for backward), and only then speedIndex rotates to
(speedIndex + 1) mod the table length. -/
theorem handle_key_press_speed_update :
    ∀ st : TLState,
      ((handle_key_press st 102).1.playback_speed =
          PLAYBACK_SPEEDS.getD st.playback_speed_index 0
        ∧ (handle_key_press st 102).1.playback_speed_index =
          (st.playback_speed_index + 1) % PLAYBACK_SPEEDS.length)
      ∧ ((handle_key_press st 98).1.playback_speed =
          -(PLAYBACK_SPEEDS.getD st.playback_speed_index 0)
        ∧ (handle_key_press st 98).1.playback_speed_index =
          (st.playback_speed_index + 1) % PLAYBACK_SPEEDS.length) := by
  intro st
  norm_num [handle_key_press]

/-- Claim C6 counterexample: starting from speedIndex 0, a forward event
sets speed to 16, the table entry at the old index, while the entry at
the rotated index 1 is 32; the claim predicts 32. -/
theorem handle_key_press_speed_counterexample :
    (handle_key_press (init_state (PyTime.mk 0 []) none) 102).1.playback_speed = 16
    ∧ (handle_key_press (init_state (PyTime.mk 0 []) none) 102).1.playback_speed_index = 1
    ∧ PLAYBACK_SPEEDS.getD 1 0 = 32
    ∧ (16 : Int) ≠ 32 := by
  refine ⟨rfl, rfl, by decide, by decide⟩

/-- Claim C3 (amended): after each per-tick advance the playback index
invariant holds: when maxIndex is positive the advance lands shownIndex
in [0, maxIndex) and leaves maxIndex unchanged, and when maxIndex is 0
the advance sets shownIndex to 0 without dividing; advance-forward,
advance-backward and toggle-play-pause events leave shownIndex and
maxIndex unchanged.  Immediately after initialization and after a
select-project event, however, shownIndex is forced to 1, which can
violate the bound until the next per-tick advance. -/
theorem play_movie_shown_index_bounds :
    (∀ st : TLState, 0 < st.img_max_index →
        0 ≤ (play_movie st).img_shown_index
        ∧ (play_movie st).img_shown_index < st.img_max_index
        ∧ (play_movie st).img_max_index = st.img_max_index)
    ∧ (∀ st : TLState, st.img_max_index = 0 →
        (play_movie st).img_shown_index = 0
        ∧ (play_movie st).img_max_index = 0)
    ∧ (∀ (st : TLState) (k : Int), k = 102 ∨ k = 98 ∨ k = 112 →
        (handle_key_press st k).1.img_shown_index = st.img_shown_index
        ∧ (handle_key_press st k).1.img_max_index = st.img_max_index) := by
  refine ⟨fun st h => ?_, fun st h => ?_, fun st k hk => ?_⟩
  · rw [play_movie, if_pos (by omega : st.img_max_index ≠ 0)]
    exact ⟨Int.fmod_nonneg' _ h, Int.fmod_lt_of_pos _ h, rfl⟩
  · rw [play_movie, if_neg (not_not.mpr h)]
    exact ⟨rfl, h⟩
  · rcases hk with h | h | h <;> subst h <;> norm_num [handle_key_press]
    split <;> exact ⟨rfl, rfl⟩

/-- Claim C3 counterexample: the state right after initialization has
maxIndex 0 but shownIndex 1, violating the claimed invariant for the
reachable state after initialization. -/
theorem playback_invariant_counterexample :
    (init_state (PyTime.mk 0 []) none).img_max_index = 0
    ∧ (init_state (PyTime.mk 0 []) none).img_shown_index ≠ 0 := by
  exact ⟨rfl, by decide⟩

/-- Witness for claim C3 at a concrete state with maxIndex 3. -/
theorem play_movie_shown_index_bounds_witness :
    0 ≤ (play_movie { init_state (PyTime.mk 0 []) none with img_max_index := 3 }).img_shown_index
    ∧ (play_movie { init_state (PyTime.mk 0 []) none with
        img_max_index := 3 }).img_shown_index < 3 :=
  ⟨(play_movie_shown_index_bounds.1 _ (by decide)).1,
   (play_movie_shown_index_bounds.1 _ (by decide)).2.1⟩

/-- The select_project scan of a list with no empty project directory
finds nothing. -/
theorem select_project_go_none (st : TLState) (ec : Str → Nat) (now : PyTime) :
    ∀ l : List Str, (∀ q ∈ l, ec q ≠ 0) → select_project_go st ec now l = none := by
  intro l h
  induction l with
  | nil => rfl
  | cons p ps ih =>
    have hp : ¬ is_directory_empty ec p = true := by
      simp only [is_directory_empty, decide_eq_true_eq]
      exact h p (List.mem_cons_self _ _)
    simp only [select_project_go, if_neg hp]
    exact ih fun q hq => h q (List.mem_cons_of_mem _ hq)

/-- The select_project scan stops at the first empty project directory
and returns the reset-and-persisted state for it. -/
theorem select_project_go_first (st : TLState) (ec : Str → Nat) (now : PyTime) :
    ∀ (l1 : List Str) (p : Str) (l2 : List Str),
      (∀ q ∈ l1, ec q ≠ 0) → ec p = 0 →
      select_project_go st ec now (l1 ++ p :: l2) =
        some (write_log_file { st with
          active_project := p
          program_start_time := now
          img_capture_index := 0 }) := by
  intro l1 p l2 h1 hp
  induction l1 with
  | nil =>
    simp only [List.nil_append, select_project_go]
    rw [if_pos (by simp only [is_directory_empty, hp, decide_eq_true_eq])]
  | cons q qs ih =>
    have hq : ¬ is_directory_empty ec q = true := by
      simp only [is_directory_empty, decide_eq_true_eq]
      exact h1 q (List.mem_cons_self _ _)
    simp only [List.cons_append, select_project_go, if_neg hq]
    exact ih fun r hr => h1 r (List.mem_cons_of_mem _ hr)

/-- Claim C2 (amended): scanning the catalog in order, the first project
whose directory is empty becomes active with the session reset
(nextCaptureIndex 0, sessionStartTime now) persisted immediately; if no
empty project exists and the persisted active project is still in the
catalog, the state is kept entirely unchanged; otherwise the default
project name becomes active and is persisted, but WITHOUT a session
reset: the loaded capture index and start time are kept as they are. -/
theorem select_project_policy :
    (∀ (st : TLState) (ec : Str → Nat) (now : PyTime) (l1 : List Str) (p : Str)
        (l2 : List Str),
        st.projects = l1 ++ p :: l2 → (∀ q ∈ l1, ec q ≠ 0) → ec p = 0 →
        select_project st ec now =
          write_log_file { st with
            active_project := p
            program_start_time := now
            img_capture_index := 0 })
    ∧ (∀ (st : TLState) (ec : Str → Nat) (now : PyTime),
        (∀ q ∈ st.projects, ec q ≠ 0) → st.active_project ∈ st.projects →
        select_project st ec now = st)
    ∧ (∀ (st : TLState) (ec : Str → Nat) (now : PyTime),
        (∀ q ∈ st.projects, ec q ≠ 0) → st.active_project ∉ st.projects →
        select_project st ec now =
          write_log_file { st with active_project := DEFAULT_PROJECT }
        ∧ (select_project st ec now).img_capture_index = st.img_capture_index
        ∧ (select_project st ec now).program_start_time = st.program_start_time) := by
  refine ⟨fun st ec now l1 p l2 hproj h1 hp => ?_,
    fun st ec now h hmem => ?_, fun st ec now h hmem => ?_⟩
  · unfold select_project
    conv_lhs => rw [hproj, select_project_go_first st ec now l1 p l2 h1 hp]
  · unfold select_project
    rw [select_project_go_none st ec now st.projects h]
    exact if_pos hmem
  · unfold select_project
    rw [select_project_go_none st ec now st.projects h]
    rw [if_neg hmem]
    exact ⟨rfl, rfl, rfl⟩

/-- Claim C2 counterexample: a catalog holding only the non-empty
project a, a persisted active project b absent from the catalog and a
loaded capture index 7: the fallback makes default active but keeps the
capture index at 7, where the claim demands a reset to 0. -/
theorem select_project_fallback_counterexample :
    (select_project
      { init_state (PyTime.mk 0 []) none with
          projects := [['a']], active_project := ['b'], img_capture_index := 7 }
      (fun _ => 1) (PyTime.mk 0 [])).active_project = DEFAULT_PROJECT
    ∧ (select_project
      { init_state (PyTime.mk 0 []) none with
          projects := [['a']], active_project := ['b'], img_capture_index := 7 }
      (fun _ => 1) (PyTime.mk 0 [])).img_capture_index = 7
    ∧ (7 : Int) ≠ 0 := by
  exact ⟨rfl, rfl, by decide⟩

/-- Witness for claim C2 at the two catalog scenarios of the spec: with
projects a (10 images) and b (empty), b is selected with a persisted
reset; with projects a (10) and b (5) and persisted active a, the state
is kept unchanged. -/
theorem select_project_policy_witness :
    select_project
        { init_state (PyTime.mk 0 []) none with
            projects := [['a'], ['b']], active_project := ['a'], img_capture_index := 10 }
        (fun p => if p = ['b'] then 0 else 10) (PyTime.mk 9 [])
      = write_log_file { init_state (PyTime.mk 0 []) none with
            projects := [['a'], ['b']], active_project := ['b'],
            program_start_time := PyTime.mk 9 [], img_capture_index := 0 }
    ∧ select_project
        { init_state (PyTime.mk 0 []) none with
            projects := [['a'], ['b']], active_project := ['a'], img_capture_index := 10 }
        (fun p => if p = ['a'] then 10 else 5) (PyTime.mk 9 [])
      = { init_state (PyTime.mk 0 []) none with
            projects := [['a'], ['b']], active_project := ['a'], img_capture_index := 10 } := by
  constructor
  · exact select_project_policy.1 _ _ _ [['a']] ['b'] [] rfl (by decide) (by decide)
  · exact select_project_policy.2.1 _ _ _ (by decide) (by decide)

/-- Claim C5: a failed camera read during a scheduled capture tick is
skipped without raising and atomically: the whole state, including the
capture index and the persisted log record, is unchanged and no frame
file is written; since the last-capture time is unchanged, every later
tick is still eligible and runs the capture again. -/
theorem capture_image_failure_atomic :
    ∀ (st : TLState) (now : PyTime), st.cap = true →
      capture_image st none now = (st, none)
      ∧ (CAPTURE_INTERVAL ≤ now.toQ - st.last_picture_time →
          scheduler_step st none now = (st, none)
          ∧ ∀ (now' : PyTime) (camRead : Option Unit), now.toQ ≤ now'.toQ →
              scheduler_step st camRead now' = capture_image st camRead now') := by
  intro st now hcap
  have hfail : capture_image st none now = (st, none) := by
    rw [capture_image, if_neg (by simp [hcap])]
  refine ⟨hfail, fun hdue => ⟨?_, fun now' camRead h => ?_⟩⟩
  · rw [scheduler_step, if_pos hdue, hfail]
  · rw [scheduler_step, if_pos (by linarith)]

/-- Witness for claim C5 at a concrete initialized state and clock. -/
theorem capture_image_failure_atomic_witness :
    capture_image { init_state (PyTime.mk 0 []) none with cap := true } none
        (PyTime.mk 10 [])
      = ({ init_state (PyTime.mk 0 []) none with cap := true }, none)
    ∧ scheduler_step { init_state (PyTime.mk 0 []) none with cap := true } none
        (PyTime.mk 10 [])
      = ({ init_state (PyTime.mk 0 []) none with cap := true }, none)
    ∧ scheduler_step { init_state (PyTime.mk 0 []) none with cap := true } (some ())
        (PyTime.mk 11 [])
      = capture_image { init_state (PyTime.mk 0 []) none with cap := true } (some ())
        (PyTime.mk 11 []) := by
  have h := capture_image_failure_atomic
    { init_state (PyTime.mk 0 []) none with cap := true } (PyTime.mk 10 []) rfl
  have hdue : CAPTURE_INTERVAL ≤ (PyTime.mk 10 []).toQ -
      ({ init_state (PyTime.mk 0 []) none with cap := true } : TLState).last_picture_time := by
    norm_num [CAPTURE_INTERVAL, PyTime.toQ, init_state, Nat.ofDigits_nil]
  exact ⟨h.1, (h.2 hdue).1,
    (h.2 hdue).2 (PyTime.mk 11 []) (some ())
      (by norm_num [PyTime.toQ, Nat.ofDigits_nil])⟩

/-- Claim C10: a successful capture while selectedProject equals
activeProject sets img_max_index to the pre-increment capture index,
which is the index of the frame just written and one less than the new
capture index, so the newest frame's index is excluded from the per-tick
advance range [0, img_max_index). -/
theorem capture_image_success_max_index :
    ∀ (st : TLState) (now : PyTime), st.cap = true →
      st.selected_project = st.active_project →
      (capture_image st (some ()) now).1.img_max_index = st.img_capture_index
      ∧ (capture_image st (some ()) now).1.img_capture_index = st.img_capture_index + 1
      ∧ (capture_image st (some ()) now).2 =
          some (st.active_project, st.img_capture_index,
            map_time_255 (Int.floor (now.toQ - st.program_start_time.toQ)).toNat)
      ∧ (capture_image st (some ()) now).1.img_max_index =
          (capture_image st (some ()) now).1.img_capture_index - 1
      ∧ (∀ j : Int, 0 ≤ j → j < (capture_image st (some ()) now).1.img_max_index →
          j ≠ st.img_capture_index) := by
  intro st now hcap hsel
  have hc : capture_image st (some ()) now =
      (write_log_file { st with
          last_picture_time := now.toQ
          img_max_index := st.img_capture_index
          img_capture_index := st.img_capture_index + 1 },
        some (st.active_project, st.img_capture_index,
          map_time_255 (Int.floor (now.toQ - st.program_start_time.toQ)).toNat)) := by
    rw [capture_image, if_neg (by simp [hcap])]
    simp only [if_pos hsel]
  rw [hc]
  refine ⟨rfl, rfl, rfl, ?_, fun j h1 h2 => ?_⟩
  · show st.img_capture_index = st.img_capture_index + 1 - 1
    omega
  · have h2' : j < st.img_capture_index := h2
    omega

/-- Witness for claim C10 at a concrete state with capture index 2. -/
theorem capture_image_success_max_index_witness :
    (capture_image
        { init_state (PyTime.mk 0 []) none with cap := true, img_capture_index := 2 }
        (some ()) (PyTime.mk 0 [])).1.img_max_index = 2
    ∧ (capture_image
        { init_state (PyTime.mk 0 []) none with cap := true, img_capture_index := 2 }
        (some ()) (PyTime.mk 0 [])).1.img_capture_index = 3
    ∧ (1 : Int) ≠ 2 := by
  have h := capture_image_success_max_index
    { init_state (PyTime.mk 0 []) none with cap := true, img_capture_index := 2 }
    (PyTime.mk 0 []) rfl rfl
  exact ⟨h.1, h.2.1, h.2.2.2.2 1 (by decide) (by rw [h.1]; decide)⟩

/-- read_log_file never changes img_max_index. -/
theorem read_log_file_max_index (st st' : TLState)
    (h : read_log_file st = Except.ok st') : st'.img_max_index = st.img_max_index := by
  unfold read_log_file at h
  split at h
  · simp only [Except.ok.injEq] at h
    subst h; rfl
  · dsimp only [] at h
    split at h
    · simp at h
    · split at h
      · simp at h
      · simp only [Except.ok.injEq] at h
        subst h; rfl

/-- A successful select_project scan never changes img_max_index. -/
theorem select_project_go_max_index (st : TLState) (ec : Str → Nat) (now : PyTime) :
    ∀ (l : List Str) (st' : TLState),
      select_project_go st ec now l = some st' → st'.img_max_index = st.img_max_index := by
  intro l
  induction l with
  | nil => intro st' h; simp [select_project_go] at h
  | cons p ps ih =>
    intro st' h
    rw [select_project_go] at h
    split at h
    · simp only [Option.some.injEq] at h
      subst h; rfl
    · exact ih st' h

/-- select_project never changes img_max_index. -/
theorem select_project_max_index (st : TLState) (ec : Str → Nat) (now : PyTime) :
    (select_project st ec now).img_max_index = st.img_max_index := by
  unfold select_project
  split
  · next st' hgo => exact select_project_go_max_index st ec now st.projects st' hgo
  · split
    · rfl
    · rfl

/-- A successful setup_project never changes img_max_index. -/
theorem setup_project_max_index (st : TLState) (dirList : List Str)
    (fileCount entryCount : Str → Nat) (now : PyTime) (st' : TLState)
    (h : setup_project st dirList fileCount entryCount now = Except.ok st') :
    st'.img_max_index = st.img_max_index := by
  unfold setup_project at h
  cases hr : read_log_file st with
  | error e => rw [hr] at h; simp [Except.bind] at h
  | ok st1 =>
    rw [hr] at h
    simp only [Except.bind] at h
    split at h
    · simp at h
    · simp only [Except.ok.injEq] at h
      subst h
      show (select_project (get_projects st1 dirList fileCount) entryCount now).img_max_index
        = st.img_max_index
      rw [select_project_max_index]
      show st1.img_max_index = st.img_max_index
      exact read_log_file_max_index st st1 hr

/-- Claim C9: setup_project assigns selected_project without ever setting
img_max_index, so after a successful startup from the initialized state
img_max_index is still 0 regardless of how many frames the resumed
project contains, and every per-tick advance from there keeps shownIndex
pinned at 0 (and img_max_index at 0) until a select-project event or a
successful capture first sets img_max_index. -/
theorem setup_project_keeps_max_index_zero :
    ∀ (st : TLState) (dirList : List Str) (fileCount entryCount : Str → Nat)
      (now : PyTime) (st' : TLState),
      setup_project st dirList fileCount entryCount now = Except.ok st' →
      st.img_max_index = 0 →
      st'.img_max_index = 0
      ∧ ∀ n : Nat, (play_movie^[n + 1] st').img_shown_index = 0
        ∧ (play_movie^[n + 1] st').img_max_index = 0 := by
  intro st dirList fc ec now st' h h0
  have hmax : st'.img_max_index = 0 := by
    rw [setup_project_max_index st dirList fc ec now st' h]
    exact h0
  have step : ∀ s : TLState, s.img_max_index = 0 →
      (play_movie s).img_shown_index = 0 ∧ (play_movie s).img_max_index = 0 := by
    intro s hs
    rw [play_movie, if_neg (not_not.mpr hs)]
    exact ⟨rfl, hs⟩
  refine ⟨hmax, fun n => ?_⟩
  induction n with
  | zero => rw [Function.iterate_one]; exact step st' hmax
  | succ n ih =>
    rw [Function.iterate_succ_apply']
    exact step _ ih.2

/-- The log record used by the witness for claim C9: project a, capture
index 5, start time 2.0. -/
def c9_log : Str := ['a', '\n', '5', '\n', '2', '.', '0']

/-- The state a successful startup reaches in the witness for claim C9:
project a resumed with 3 frames on disk, img_max_index still 0. -/
def c9_result : TLState :=
  { init_state (PyTime.mk 0 []) (some c9_log) with
      active_project := ['a']
      selected_project := ['a']
      selected_project_index := 0
      img_capture_index := 5
      program_start_time := PyTime.mk 2 [0]
      projects := [['a']]
      projects_dict := [(['a'], 3)] }

/-- Witness for claim C9: a startup that resumes project a holding 3
frames still leaves img_max_index 0, and the first per-tick advance
pins shownIndex to 0. -/
theorem setup_project_keeps_max_index_zero_witness :
    c9_result.img_max_index = 0 ∧ (play_movie^[1] c9_result).img_shown_index = 0 := by
  have h := setup_project_keeps_max_index_zero
    (init_state (PyTime.mk 0 []) (some c9_log)) [['a']] (fun _ => 3) (fun _ => 3)
    (PyTime.mk 9 []) c9_result (by rfl) rfl
  exact ⟨h.1, (h.2 0).1⟩

/-- The digit character of a value below ten has the expected code. -/
theorem digitChar_toNat (d : Nat) (hd : d < 10) : (digitChar d).toNat = 48 + d := by
  interval_cases d <;> decide

/-- Parsing the digit character of a value below ten gives it back. -/
theorem charToDigit_digitChar (d : Nat) (hd : d < 10) :
    charToDigit (digitChar d) = some d := by
  interval_cases d <;> decide

/-- A character with a decimal-digit code is not whitespace, not a line
feed, not a carriage return, not a decimal point and not a sign. -/
theorem digit_char_class (c : Char) (h : 48 ≤ c.toNat ∧ c.toNat ≤ 57) :
    isPySpace c = false ∧ c ≠ '\n' ∧ c ≠ '\r' ∧ c ≠ '.' ∧ c ≠ '-' ∧ c ≠ '+' := by
  have h3 : c ≠ '\n' := fun he => absurd (he ▸ h) (by decide)
  have h4 : c ≠ '\r' := fun he => absurd (he ▸ h) (by decide)
  have h7 : c ≠ '.' := fun he => absurd (he ▸ h) (by decide)
  have h8 : c ≠ '-' := fun he => absurd (he ▸ h) (by decide)
  have h9 : c ≠ '+' := fun he => absurd (he ▸ h) (by decide)
  refine ⟨?_, h3, h4, h7, h8, h9⟩
  rw [isPySpace]
  apply decide_eq_false
  omega

/-- The fueled digit extractor agrees with Nat.digits when given enough
fuel. -/
theorem toDigitsRev_eq_digits : ∀ fuel n : Nat, n ≤ fuel →
    toDigitsRev fuel n = Nat.digits 10 n := by
  intro fuel
  induction fuel with
  | zero =>
    intro n hn
    have h0 : n = 0 := Nat.le_zero.mp hn
    subst h0
    simp [toDigitsRev, Nat.digits_zero]
  | succ f ih =>
    intro n hn
    rw [toDigitsRev]
    by_cases h0 : n = 0
    · subst h0; simp [Nat.digits_zero]
    · rw [if_neg h0,
        Nat.digits_def' (by norm_num : (1 : ℕ) < 10) (Nat.pos_of_ne_zero h0)]
      congr 1
      exact ih (n / 10) (by omega)

/-- Every character of the decimal rendering of a Nat is a digit. -/
theorem natToChars_digits (n : Nat) : ∀ c ∈ natToChars n,
    48 ≤ c.toNat ∧ c.toNat ≤ 57 := by
  intro c hc
  rw [natToChars] at hc
  split at hc
  · simp only [List.mem_singleton] at hc
    subst hc; decide
  · simp only [List.mem_map] at hc
    obtain ⟨d, hd, rfl⟩ := hc
    have hd10 : d < 10 := by
      rw [toDigitsRev_eq_digits n n le_rfl] at hd
      exact Nat.digits_lt_base (by norm_num) (List.mem_reverse.mp hd)
    rw [digitChar_toNat d hd10]
    omega

/-- Reading digit values off a rendered digit list gives them back. -/
theorem parseDigits_map_digitChar : ∀ ds : List Nat, (∀ d ∈ ds, d < 10) →
    parseDigits (ds.map digitChar) = some ds := by
  intro ds h
  induction ds with
  | nil => rfl
  | cons d rest ih =>
    rw [List.map_cons, parseDigits,
      charToDigit_digitChar d (h d (List.mem_cons_self _ _)),
      ih fun e he => h e (List.mem_cons_of_mem _ he)]
    rfl

/-- The decimal rendering of a Nat parses back to it. -/
theorem parseNat_natToChars (n : Nat) : parseNat (natToChars n) = some n := by
  by_cases h0 : n = 0
  · subst h0; rfl
  · have hne : (toDigitsRev n n).reverse.map digitChar ≠ [] := by
      rw [toDigitsRev_eq_digits n n le_rfl]
      simp [Nat.digits_ne_nil_iff_ne_zero, h0]
    rw [natToChars, if_neg h0, parseNat, if_neg hne,
      parseDigits_map_digitChar _ (fun d hd => by
        rw [toDigitsRev_eq_digits n n le_rfl] at hd
        exact Nat.digits_lt_base (by norm_num) (List.mem_reverse.mp hd))]
    simp [toDigitsRev_eq_digits n n le_rfl, Nat.ofDigits_digits]

/-- The head of a decimal rendering is never a given non-digit. -/
theorem natToChars_head_ne (n : Nat) (c : Char)
    (hc : ¬ (48 ≤ c.toNat ∧ c.toNat ≤ 57)) : (natToChars n).head? ≠ some c := by
  intro h
  cases hl : natToChars n with
  | nil => rw [hl] at h; cases h
  | cons a t =>
    rw [hl] at h
    simp only [List.head?_cons, Option.some.injEq] at h
    subst h
    exact hc (natToChars_digits n a (hl ▸ List.mem_cons_self a t))

/-- The decimal rendering of a non-negative int parses back to it. -/
theorem parseInt_intToChars (i : Int) (h : 0 ≤ i) :
    parseInt (intToChars i) = some i := by
  rw [intToChars, if_neg (by omega), parseInt,
    if_neg (natToChars_head_ne _ '-' (by decide)),
    if_neg (natToChars_head_ne _ '+' (by decide)),
    parseNat_natToChars]
  simp [Int.toNat_of_nonneg h]

/-- Splitting a string free of the separator yields that string alone. -/
theorem splitOnChar_not_mem (sep : Char) : ∀ s : Str, sep ∉ s →
    splitOnChar sep s = [s] := by
  intro s
  induction s with
  | nil => intro h; rfl
  | cons c cs ih =>
    intro h
    rw [splitOnChar, if_neg fun hc => h (List.mem_cons.mpr (Or.inl hc.symm)),
      ih fun hm => h (List.mem_cons_of_mem _ hm)]

/-- Splitting at an explicit separator occurrence peels off the piece in
front of it when that piece is free of the separator. -/
theorem splitOnChar_append (sep : Char) : ∀ a b : Str, sep ∉ a →
    splitOnChar sep (a ++ sep :: b) = a :: splitOnChar sep b := by
  intro a
  induction a with
  | nil => intro b h; rw [List.nil_append, splitOnChar, if_pos rfl]
  | cons c cs ih =>
    intro b h
    rw [List.cons_append, splitOnChar,
      if_neg fun hc => h (List.mem_cons.mpr (Or.inl hc.symm)),
      ih b fun hm => h (List.mem_cons_of_mem _ hm)]

/-- The universal-newlines translation leaves a list that starts with
anything but a carriage return alone at its head. -/
theorem univNewlines_cons_ne (c : Char) (hc : c ≠ '\r') :
    ∀ cs : Str, univNewlines (c :: cs) = c :: univNewlines cs := by
  intro cs
  cases cs with
  | nil =>
    show [if c = '\r' then '\n' else c] = [c]
    rw [if_neg hc]
  | cons d rest =>
    show (if c = '\r' then
        if d = '\n' then '\n' :: univNewlines rest else '\n' :: univNewlines (d :: rest)
      else c :: univNewlines (d :: rest)) = c :: univNewlines (d :: rest)
    rw [if_neg hc]

/-- The universal-newlines translation is the identity on content free
of carriage returns. -/
theorem univNewlines_eq_self (s : Str) (h : '\r' ∉ s) : univNewlines s = s := by
  induction s with
  | nil => rfl
  | cons c cs ih =>
    rw [univNewlines_cons_ne c (fun he => h (List.mem_cons.mpr (Or.inl he.symm))) cs,
      ih fun hm => h (List.mem_cons_of_mem _ hm)]

/-- dropWhile is the identity on a list whose elements all fail the
predicate. -/
theorem dropWhile_eq_self_of (p : Char → Bool) (s : Str)
    (h : ∀ c ∈ s, p c = false) : s.dropWhile p = s := by
  cases s with
  | nil => rfl
  | cons c cs => simp [List.dropWhile_cons, h c (List.mem_cons_self c cs)]

/-- Python strip is the identity on a string with no whitespace at all. -/
theorem pyStrip_eq_self (s : Str) (h : ∀ c ∈ s, isPySpace c = false) :
    pyStrip s = s := by
  rw [pyStrip, lstrip, dropWhile_eq_self_of _ _ h, rstrip,
    dropWhile_eq_self_of _ _ (fun c hc => h c (List.mem_reverse.mp hc)),
    List.reverse_reverse]

/-- Well-formedness of a decimal time is decidable. -/
instance (t : PyTime) : Decidable t.wf :=
  inferInstanceAs (Decidable (∀ d ∈ t.frac, d < 10))

/-- The decimal rendering of a Nat is never empty. -/
theorem natToChars_ne_nil (n : Nat) : natToChars n ≠ [] := by
  rw [natToChars]
  split
  · simp
  · next h0 =>
    rw [toDigitsRev_eq_digits n n le_rfl]
    simp [Nat.digits_ne_nil_iff_ne_zero, h0]

/-- The decimal rendering of a well-formed time parses back to it. -/
theorem parseFloat_timeToChars (t : PyTime) (hwf : t.wf) :
    parseFloat (timeToChars t) = some t := by
  have hdotW : '.' ∉ natToChars t.sec :=
    fun hm => absurd (natToChars_digits _ _ hm) (by decide)
  have hdotF : '.' ∉ t.frac.map digitChar := by
    intro hm
    simp only [List.mem_map] at hm
    obtain ⟨d, hd, he⟩ := hm
    have hv := digitChar_toNat d (hwf d hd)
    rw [he] at hv
    have h46 : ('.' : Char).toNat = 46 := rfl
    rw [h46] at hv
    omega
  rw [timeToChars, parseFloat, splitOnChar_append '.' _ _ hdotW,
    splitOnChar_not_mem '.' _ hdotF]
  dsimp only []
  rw [if_neg fun hx => natToChars_ne_nil t.sec hx.1,
    if_neg (natToChars_ne_nil t.sec),
    parseNat_natToChars, parseDigits_map_digitChar t.frac hwf]
  rfl

/-- Every character of the rendering of a non-negative int is a digit. -/
theorem intToChars_nonneg_digits (i : Int) (h : 0 ≤ i) :
    ∀ c ∈ intToChars i, 48 ≤ c.toNat ∧ c.toNat ≤ 57 := by
  rw [intToChars, if_neg (by omega)]
  exact natToChars_digits i.toNat

/-- Every character of the rendering of a time is non-whitespace, not a
line feed and not a carriage return. -/
theorem timeToChars_class (t : PyTime) (hwf : t.wf) :
    ∀ c ∈ timeToChars t, isPySpace c = false ∧ c ≠ '\n' ∧ c ≠ '\r' := by
  intro c hc
  rw [timeToChars] at hc
  rcases List.mem_append.mp hc with h | h
  · have hcl := digit_char_class c (natToChars_digits _ _ h)
    exact ⟨hcl.1, hcl.2.1, hcl.2.2.1⟩
  · rcases List.mem_cons.mp h with h | h
    · subst h; exact ⟨by decide, by decide, by decide⟩
    · simp only [List.mem_map] at h
      obtain ⟨d, hd, rfl⟩ := h
      have hcl := digit_char_class (digitChar d)
        (by have hb := hwf d hd; rw [digitChar_toNat d hb]; omega)
      exact ⟨hcl.1, hcl.2.1, hcl.2.2.1⟩

/-- Claim C7 (amended): save followed by load restores all three session
fields for every state whose project name contains neither a line feed
nor a carriage return (the file is read with universal newlines, so a
lone carriage return would also end the first line) AND is unchanged by
str.strip over the full Unicode whitespace set (no leading or trailing
whitespace), whose capture index is non-negative, and whose start time
is a well-formed decimal.  The extra conditions are forced: load splits
lines at both newline kinds and strips each line, so a name with a
carriage return, or with leading or trailing whitespace, does not
survive the trip. -/
theorem write_read_log_roundtrip :
    ∀ st : TLState, '\n' ∉ st.active_project → '\r' ∉ st.active_project →
      pyStrip st.active_project = st.active_project →
      0 ≤ st.img_capture_index → st.program_start_time.wf →
      read_log_file (write_log_file st) = Except.ok (write_log_file st)
      ∧ (write_log_file st).active_project = st.active_project
      ∧ (write_log_file st).img_capture_index = st.img_capture_index
      ∧ (write_log_file st).program_start_time = st.program_start_time := by
  intro st hnl hcr hstrip hidx hwf
  have hICd := intToChars_nonneg_digits st.img_capture_index hidx
  have hICnl : '\n' ∉ intToChars st.img_capture_index :=
    fun hm => (digit_char_class _ (hICd _ hm)).2.1 rfl
  have hICcr : '\r' ∉ intToChars st.img_capture_index :=
    fun hm => (digit_char_class _ (hICd _ hm)).2.2.1 rfl
  have hTCc := timeToChars_class st.program_start_time hwf
  have hTCnl : '\n' ∉ timeToChars st.program_start_time :=
    fun hm => (hTCc _ hm).2.1 rfl
  have hTCcr : '\r' ∉ timeToChars st.program_start_time :=
    fun hm => (hTCc _ hm).2.2 rfl
  have hnocr : '\r' ∉ st.active_project ++ '\n' ::
      (intToChars st.img_capture_index ++ '\n' :: timeToChars st.program_start_time) := by
    intro hm
    rcases List.mem_append.mp hm with h | h
    · exact hcr h
    · rcases List.mem_cons.mp h with h | h
      · exact absurd h (by decide)
      · rcases List.mem_append.mp h with h | h
        · exact hICcr h
        · rcases List.mem_cons.mp h with h | h
          · exact absurd h (by decide)
          · exact hTCcr h
  have hsplit : splitOnChar '\n' (st.active_project ++ '\n' ::
      (intToChars st.img_capture_index ++ '\n' :: timeToChars st.program_start_time)) =
      [st.active_project, intToChars st.img_capture_index,
        timeToChars st.program_start_time] := by
    rw [splitOnChar_append '\n' _ _ hnl, splitOnChar_append '\n' _ _ hICnl,
      splitOnChar_not_mem '\n' _ hTCnl]
  have hICstrip : pyStrip (intToChars st.img_capture_index) =
      intToChars st.img_capture_index :=
    pyStrip_eq_self _ fun c hc => (digit_char_class c (hICd c hc)).1
  have hTCstrip : pyStrip (timeToChars st.program_start_time) =
      timeToChars st.program_start_time :=
    pyStrip_eq_self _ fun c hc => (hTCc c hc).1
  refine ⟨?_, rfl, rfl, rfl⟩
  rw [read_log_file,
    show (write_log_file st).log_content = some (st.active_project ++ '\n' ::
      (intToChars st.img_capture_index ++ '\n' :: timeToChars st.program_start_time))
      from rfl]
  dsimp only []
  rw [univNewlines_eq_self _ hnocr, hsplit,
    show lineAt [st.active_project, intToChars st.img_capture_index,
      timeToChars st.program_start_time] 0 = st.active_project from rfl,
    show lineAt [st.active_project, intToChars st.img_capture_index,
      timeToChars st.program_start_time] 1 = intToChars st.img_capture_index from rfl,
    show lineAt [st.active_project, intToChars st.img_capture_index,
      timeToChars st.program_start_time] 2 = timeToChars st.program_start_time from rfl,
    hstrip, hICstrip, hTCstrip, parseInt_intToChars _ hidx,
    parseFloat_timeToChars _ hwf]
  rfl

/-- Claim C7 counterexample: three project names that contain no line
feed, so the claim calls the states valid, yet fail the round trip.  A
name of a space then a comes back stripped to a.  A name a, carriage
return, b is split in two by the universal-newlines read, the index
line becomes b, and load raises ValueError.  A name of a no-break space
then a is also stripped to a, since str.strip removes all Unicode
whitespace. -/
theorem write_read_log_counterexample :
    ('\n' ∉ ([' ', 'a'] : Str))
    ∧ (read_log_file (write_log_file
        { init_state (PyTime.mk 0 []) none with
            active_project := [' ', 'a']
            img_capture_index := 0
            program_start_time := PyTime.mk 7 [5] })).toOption.map TLState.active_project
      = some ['a']
    ∧ (['a'] : Str) ≠ [' ', 'a']
    ∧ ('\n' ∉ (['a', '\r', 'b'] : Str))
    ∧ pyStrip ['a', '\r', 'b'] = ['a', '\r', 'b']
    ∧ read_log_file (write_log_file
        { init_state (PyTime.mk 0 []) none with
            active_project := ['a', '\r', 'b']
            img_capture_index := 3
            program_start_time := PyTime.mk 7 [5] })
      = Except.error PyErr.valueError
    ∧ ('\n' ∉ (['\xa0', 'a'] : Str))
    ∧ (read_log_file (write_log_file
        { init_state (PyTime.mk 0 []) none with
            active_project := ['\xa0', 'a']
            img_capture_index := 0
            program_start_time := PyTime.mk 7 [5] })).toOption.map TLState.active_project
      = some ['a']
    ∧ (['a'] : Str) ≠ ['\xa0', 'a'] := by
  exact ⟨by decide, rfl, by decide, by decide, by decide, rfl, by decide, rfl, by decide⟩

/-- Witness for claim C7 at the state with name a, index 3, time 7.5. -/
theorem write_read_log_roundtrip_witness :
    read_log_file (write_log_file
      { init_state (PyTime.mk 0 []) none with
          active_project := ['a']
          img_capture_index := 3
          program_start_time := PyTime.mk 7 [5] })
    = Except.ok (write_log_file
      { init_state (PyTime.mk 0 []) none with
          active_project := ['a']
          img_capture_index := 3
          program_start_time := PyTime.mk 7 [5] }) :=
  (write_read_log_roundtrip _ (by decide) (by decide) (by decide) (by decide)
    (by decide)).1

/-- Claim C4 (amended): load (read_log_file) catches only the missing
record: then it returns without raising, leaving the state exactly as
initialized (activeProject stays the initialize-time empty string, not
the string default; nextCaptureIndex 0; sessionStartTime the startup
clock), with only a printed notice.  A malformed record - too few lines,
a non-integer index field, or a non-numeric time field - raises an
uncaught ValueError instead of returning defaults. -/
theorem read_log_file_error_handling :
    (∀ st : TLState, st.log_content = none → read_log_file st = Except.ok st)
    ∧ (init_state (PyTime.mk 0 []) none).active_project = []
    ∧ (init_state (PyTime.mk 0 []) none).img_capture_index = 0
    ∧ (init_state (PyTime.mk 0 []) none).program_start_time = PyTime.mk 0 []
    ∧ read_log_file (init_state (PyTime.mk 0 []) (some ['x']))
        = Except.error PyErr.valueError
    ∧ read_log_file (init_state (PyTime.mk 0 [])
          (some ['x', '\n', 'a', 'b', 'c', '\n', '1', '.', '0']))
        = Except.error PyErr.valueError
    ∧ read_log_file (init_state (PyTime.mk 0 [])
          (some ['x', '\n', '3', '\n', 'z', 'z']))
        = Except.error PyErr.valueError := by
  refine ⟨fun st h => ?_, rfl, rfl, rfl, rfl, rfl, rfl⟩
  rw [read_log_file, h]

/-- Claim C4 counterexample: a record whose second line abc is not an
integer makes read_log_file raise ValueError rather than return the
defaults without raising, falsifying the never-fails claim. -/
theorem read_log_file_malformed_counterexample :
    read_log_file (init_state (PyTime.mk 0 [])
        (some ['x', '\n', 'a', 'b', 'c', '\n', '2', '.', '0']))
      = Except.error PyErr.valueError := rfl

/-- Witness for claim C4 at the missing-record case. -/
theorem read_log_file_error_handling_witness :
    read_log_file (init_state (PyTime.mk 0 []) none)
      = Except.ok (init_state (PyTime.mk 0 []) none) :=
  read_log_file_error_handling.1 _ rfl
